import Mathlib

/-!
Shallow embedding of the turret build orchestration pipeline and its
backend abstraction layer (package managers, user/group managers, find
implementations), translated from the Go sources under pkg/ and
internal/.

Conventions of the embedding:

- Go `[]string` becomes `List String`.
- Go backend identifier types (`pckg.Backend`, `user.Backend`,
  `find.Backend`, `linux.Distro`), which are integer types whose named
  constants are powers of two (`1 << iota`), become `Nat` together with
  one definition per named constant.
- A command executed in the working container (a Buildah `Run` call) is
  recorded as an `Invocation`: the argument vector, the capability set
  added onto the default run options, and whether the network was
  enabled (`buildah.NetworkEnabled` vs the default
  `buildah.NetworkDisabled` of `Container.DefaultRunOptions`).
- Fallible Go functions returning `(T, error)` become
  `Except String T`.
- Orchestrator methods are modelled as functions from their inputs (and
  the outcomes of the container commands they consume, supplied as
  explicit parameters) to the list of invocations they perform together
  with their result.
-/

set_option autoImplicit false

/-- One container command execution: argument vector, capabilities added
to the run options, and whether networking is enabled for the process. -/
structure Invocation where
  argv : List String
  capabilities : List String
  networkEnabled : Bool
deriving Repr, DecidableEq

namespace gostr

/-! Character-list models of the Go standard library string functions
used by the repository (`strings.TrimSpace`, `strings.Split`,
`strings.ReplaceAll(s, "\r\n", "\n")`, `strings.Cut`,
`strings.LastIndex` with a one-character separator, `strings.Fields`).
They are written by structural recursion on `String.data` so that every
theorem about them can be checked by kernel reduction. -/

/-- Whitespace recognized by `strings.TrimSpace` and `strings.Fields`
(the ASCII subset of Unicode White_Space, which covers every string the
repository produces). -/
def isSpace (c : Char) : Bool :=
  c == ' ' || c == '\t' || c == '\n' || c == '\r' || c == '\x0b' || c == '\x0c'

/-- Model of `strings.TrimSpace`. -/
def trimSpace (s : String) : String :=
  ⟨((s.data.dropWhile isSpace).reverse.dropWhile isSpace).reverse⟩

/-- Split a character list at every character satisfying `p`, keeping
empty segments, as `strings.Split` does for a one-character separator. -/
def splitPred (p : Char → Bool) : List Char → List (List Char)
  | [] => [[]]
  | c :: cs =>
    match splitPred p cs, p c with
    | r, true => [] :: r
    | [], false => [[c]]
    | h :: t, false => (c :: h) :: t

/-- Model of `strings.Split(s, sep)` for a one-character separator. -/
def splitString (sep : Char) (s : String) : List String :=
  (splitPred (fun c => c == sep) s.data).map String.mk

/-- Model of `strings.ReplaceAll(s, "\r\n", "\n")` on character lists. -/
def crlfToLF : List Char → List Char
  | '\r' :: '\n' :: rest => '\n' :: crlfToLF rest
  | c :: rest => c :: crlfToLF rest
  | [] => []

/-- Model of `strings.Cut(l, sep)` for a one-character separator:
`some (before, after)` when the separator occurs, `none` otherwise. -/
def cut (sep : Char) : List Char → Option (List Char × List Char)
  | [] => none
  | c :: cs =>
    if c == sep then some ([], cs)
    else (cut sep cs).map (fun p => (c :: p.1, p.2))

/-- Model of `strings.LastIndex(l, sep)` for a one-character separator:
the index of the last occurrence, or `none` when absent (Go returns -1). -/
def lastIndexOfChar (sep : Char) : List Char → Option Nat
  | [] => none
  | c :: cs =>
    match lastIndexOfChar sep cs with
    | some i => some (i + 1)
    | none => if c == sep then some 0 else none

/-- Model of `strings.Fields`: the whitespace-separated words of `s`. -/
def fields (s : String) : List String :=
  ((splitPred isSpace s.data).filter (fun l => l ≠ [])).map String.mk

end gostr

/-- Discriminator for `Except` mirroring a Go `err == nil` test. -/
def exceptIsOk {ε α : Type} : Except ε α → Bool
  | .ok _ => true
  | .error _ => false

namespace pckg

/-! Package management axis, from pkg/linux/pckg. The backend identifier
is a Go integer whose named constants are `1 << iota`; the zero value
represents an unknown package manager. -/

def APK : Nat := 1
def APT : Nat := 2
def DNF : Nat := 4
def Pacman : Nat := 8
def XBPS : Nat := 16
def Zypper : Nat := 32

/-- The closed set of command factories, one per named backend constant
(APKCommandFactory, APTCommandFactory, DNFCommandFactory,
PacmanCommandFactory, XBPSCommandFactory, ZypperCommandFactory). -/
inductive Factory
  | apk
  | apt
  | dnf
  | pacman
  | xbps
  | zypper
deriving Repr, DecidableEq

/-- Translation of `pckg.NewCommandFactory`: a factory for every named
backend constant, an error for every other value (the switch default). -/
def NewCommandFactory (b : Nat) : Except String Factory :=
  if b = APK then .ok .apk
  else if b = APT then .ok .apt
  else if b = DNF then .ok .dnf
  else if b = Pacman then .ok .pacman
  else if b = XBPS then .ok .xbps
  else if b = Zypper then .ok .zypper
  else .error "unrecognized package manager"

/-- Per-factory `NewCleanCacheCmd`. -/
def NewCleanCacheCmd : Factory → List String × List String
  | .apk => ([], [])
  | .apt => (["apt", "--quiet", "clean"], ["CAP_CHOWN", "CAP_DAC_OVERRIDE", "CAP_FOWNER"])
  | .dnf => (["dnf", "--quiet", "clean", "all"], [])
  | .pacman => (["pacman", "--sync", "--clean", "--clean", "--noconfirm", "--quiet"], [])
  | .xbps => (["xbps-remove", "--clean-cache", "--yes"], [])
  | .zypper => (["zypper", "--non-interactive", "--quiet", "clean", "--all"], [])

/-- Per-factory `NewInstallCmd`. -/
def NewInstallCmd (f : Factory) (packages : List String) : List String × List String :=
  match f with
  | .apk => (["apk", "--no-cache", "--no-progress", "--quiet", "add"] ++ packages, [])
  | .apt =>
    (["apt", "--quiet", "--yes", "install"] ++ packages,
     ["CAP_CHOWN", "CAP_DAC_OVERRIDE", "CAP_FOWNER", "CAP_SETGID", "CAP_SETUID"])
  | .dnf =>
    (["dnf", "--assumeyes", "--quiet", "--setopt=install_weak_deps=False", "install"] ++ packages,
     ["CAP_CHOWN", "CAP_DAC_OVERRIDE", "CAP_SETFCAP"])
  | .pacman =>
    (["pacman", "--sync", "--noconfirm", "--noprogressbar", "--quiet"] ++ packages,
     ["CAP_CHOWN", "CAP_DAC_OVERRIDE", "CAP_FOWNER", "CAP_SYS_CHROOT"])
  | .xbps => (["xbps-install", "--yes"] ++ packages, ["CAP_DAC_OVERRIDE"])
  | .zypper => (["zypper", "--non-interactive", "--quiet", "install", "--no-recommends"] ++ packages, [])

/-- Per-factory `NewUpdateIndexCmd`; every backend except APT documents
the no-op empty command, because the tool refreshes its own index. -/
def NewUpdateIndexCmd : Factory → List String × List String
  | .apt =>
    (["apt", "--quiet", "update"],
     ["CAP_CHOWN", "CAP_DAC_OVERRIDE", "CAP_FOWNER", "CAP_SETGID", "CAP_SETUID"])
  | _ => ([], [])

/-- Per-factory `NewUpgradeCmd`. -/
def NewUpgradeCmd : Factory → List String × List String
  | .apk => (["apk", "--no-cache", "--no-progress", "--quiet", "upgrade"], [])
  | .apt =>
    (["apt", "--quiet", "--yes", "upgrade"],
     ["CAP_CHOWN", "CAP_DAC_OVERRIDE", "CAP_FOWNER", "CAP_SETGID", "CAP_SETUID"])
  | .dnf =>
    (["dnf", "--assumeyes", "--quiet", "--refresh", "upgrade"],
     ["CAP_CHOWN", "CAP_DAC_OVERRIDE", "CAP_SETFCAP"])
  | .pacman =>
    (["pacman", "--sync", "--sysupgrade", "--refresh", "--noconfirm", "--noprogressbar", "--quiet"],
     ["CAP_CHOWN", "CAP_DAC_OVERRIDE", "CAP_FOWNER", "CAP_SYS_CHROOT"])
  | .xbps => (["xbps-install", "--sync", "--update", "--yes"], ["CAP_DAC_OVERRIDE"])
  | .zypper => (["zypper", "--non-interactive", "--quiet", "patch"], [])

/-- Argument vector of the per-factory `NewListInstalledPackagesCmd`
(none of the list commands declares capabilities). -/
def NewListInstalledPackagesCmd : Factory → List String
  | .apk => ["apk", "--no-interactive", "--no-network", "--quiet", "list", "--installed"]
  | .apt => ["apt-cache", "pkgnames"]
  | .dnf => ["dnf", "--color=never", "--quiet", "list", "--installed"]
  | .pacman => ["pacman", "--color", "never", "--query", "--quiet"]
  | .xbps => ["xbps-query", "--list-pkgs"]
  | .zypper =>
    ["zypper", "--non-interactive", "--quiet", "--terse", "--no-remote", "packages",
     "--installed-only"]

/-- APK list parser, one line: expected format
`name-version-revision arch ...`; the name is the field before the first
space with its last two hyphen-delimited segments removed. -/
def apkParseLine (l : String) : Except String String :=
  match gostr.cut ' ' l.data with
  | none => .error ("expected space delimiter in line " ++ l)
  | some (pkg, _) =>
    match gostr.lastIndexOfChar '-' pkg with
    | none => .error ("expected format name-version-revision for field " ++ String.mk pkg)
    | some i =>
      match gostr.lastIndexOfChar '-' (pkg.take i) with
      | none => .error ("expected format name-version-revision for field " ++ String.mk pkg)
      | some j => .ok (String.mk (pkg.take j))

/-- DNF list parser, one line: expected format `name.arch version repo`;
the name is the field before the first space with the arch suffix (after
the last dot) removed. -/
def dnfParseLine (l : String) : Except String String :=
  match gostr.cut ' ' l.data with
  | none => .error ("expected space delimiter in line " ++ l)
  | some (pkg, _) =>
    match gostr.lastIndexOfChar '.' pkg with
    | none => .error ("expected format name.arch for field " ++ String.mk pkg)
    | some i => .ok (String.mk (pkg.take i))

/-- Zypper list parser, one line: expected format
`status | repo | name | version | arch`. -/
def zypperParseLine (l : String) : Except String String :=
  match gostr.splitString '|' l with
  | [_, _, name, _, _] => .ok (gostr.trimSpace name)
  | _ => .error ("expected 5 fields in line " ++ l)

/-- XBPS list parser, one line: expected format
`status name-version_revision description`; the name is the second field
with the segment after the last hyphen removed. -/
def xbpsParseLine (l : String) : Except String String :=
  match gostr.fields l with
  | _ :: pkg :: _ :: _ =>
    match gostr.lastIndexOfChar '-' pkg.data with
    | none => .error ("expected format name-version_revision for field " ++ pkg)
    | some i => .ok (String.mk (pkg.data.take i))
  | _ => .error ("expected at least 3 fields in line " ++ l)

/-- The per-factory parse function returned by
`NewListInstalledPackagesCmd`, applied to the split output lines. APT and
Pacman return the lines unchanged; APK and XBPS parse every line; DNF
skips one header line and treats shorter input as no packages; Zypper
skips two header lines and treats shorter input as no packages. -/
def parseListOutput : Factory → List String → Except String (List String)
  | .apt, lines => .ok lines
  | .pacman, lines => .ok lines
  | .apk, lines => lines.mapM apkParseLine
  | .xbps, lines => lines.mapM xbpsParseLine
  | .dnf, lines =>
    if lines.length < 2 then .ok [] else (lines.drop 1).mapM dnfParseLine
  | .zypper, lines =>
    if lines.length < 3 then .ok [] else (lines.drop 2).mapM zypperParseLine

/-- The closed set of package frontends of
internal/container/packagefrontend.go: `APTPackageFrontend` overrides
`Install` and `Upgrade`; every other backend uses the generic
`PackageFrontend`. -/
inductive Frontend
  | apt (f : Factory)
  | generic (f : Factory)
deriving Repr, DecidableEq

/-- Translation of `container.NewPackageFrontend`: build the command
factory, then wrap it in the APT-specific frontend exactly for APT and
in the generic frontend for the five other named backends. -/
def NewPackageFrontend (b : Nat) : Except String Frontend :=
  match NewCommandFactory b with
  | .error e => .error e
  | .ok factory =>
    if b = APT then .ok (.apt factory)
    else if b = APK ∨ b = DNF ∨ b = Pacman ∨ b = XBPS ∨ b = Zypper then .ok (.generic factory)
    else .error "unrecognized package manager"

/-- The container commands run by `Install`, in order.
`PackageFrontend.Install` runs the factory's install command once with
the network enabled; `APTPackageFrontend.Install` first runs the
factory's update-index command, then the install command, each with the
network enabled and its own capability set. -/
def installInvocations : Frontend → List String → List Invocation
  | .generic f, packages =>
    let (cmd, capabilities) := NewInstallCmd f packages
    [⟨cmd, capabilities, true⟩]
  | .apt f, packages =>
    let (ucmd, ucapabilities) := NewUpdateIndexCmd f
    let (cmd, capabilities) := NewInstallCmd f packages
    [⟨ucmd, ucapabilities, true⟩, ⟨cmd, capabilities, true⟩]

/-- The line-splitting step of `PackageFrontend.List`:
`strings.Split(strings.ReplaceAll(strings.TrimSpace(outText), "\r\n", "\n"), "\n")`. -/
def listLines (outText : String) : List String :=
  gostr.splitString '\n' ⟨gostr.crlfToLF (gostr.trimSpace outText).data⟩

/-- Result of `PackageFrontend.List` when the list-installed command
succeeds with captured standard output `outText`: split the trimmed
output into lines unconditionally and feed them to the backend's parse
function. -/
def listInstalledPackages (f : Factory) (outText : String) : Except String (List String) :=
  parseListOutput f (listLines outText)

end pckg

namespace user

/-! User and group management axis, from pkg/linux/user and the
container-side frontends. The backend identifier constants are
`BusyBox = 1`, `Shadow = 2`; the zero value is unknown. -/

def BusyBox : Nat := 1
def Shadow : Nat := 2

/-- The closed set of user/group command factories. -/
inductive Factory
  | busybox
  | shadow
deriving Repr, DecidableEq

/-- Translation of `user.NewCommandFactory`. -/
def NewCommandFactory (m : Nat) : Except String Factory :=
  if m = BusyBox then .ok .busybox
  else if m = Shadow then .ok .shadow
  else .error "unrecognized user management utility"

/-- Translation of `user.Options` (pkg/linux/user/commandfactory.go):
numeric ID (0 delegates the choice to the tool), user-group flag,
supplementary groups, optional GECOS comment, create-home flag. -/
structure Options where
  id : Nat
  userGroup : Bool
  groups : List String
  comment : Option String
  createHome : Bool
deriving Repr, DecidableEq

/-- Translation of `ShadowCommandFactory.NewCreateUserCmd`
(pkg/linux/user/commandfactory_shadow.go): assemble the `useradd`
argument vector from the options and declare the capability set
`CAP_CHOWN`, `CAP_DAC_OVERRIDE`, `CAP_FOWNER`. -/
def shadowNewCreateUserCmd (name : String) (o : Options) : List String × List String :=
  let cmd := ["useradd"]
  let cmd := if o.id > 0 then cmd ++ ["--uid", toString o.id] else cmd
  let cmd := if o.userGroup then cmd ++ ["--user-group"] else cmd
  let cmd := if o.groups.length > 0 then cmd ++ ["--groups", String.intercalate "," o.groups] else cmd
  let cmd := match o.comment with
    | some c => cmd ++ ["--comment", c]
    | none => cmd
  let cmd := if o.createHome then cmd ++ ["--create-home"] else cmd
  (cmd ++ [name], ["CAP_CHOWN", "CAP_DAC_OVERRIDE", "CAP_FOWNER"])

/-- Translation of `ShadowUserManager.CreateUser`: run the factory's
create-user command once; when the `sss_cache` helper is resolvable in
the container, append `CAP_SETGID` and `CAP_SETUID` to the factory's
capability set before running (useradd forks into `sss_cache`, which
must assume an effective root identity); otherwise run with exactly the
factory's capabilities. The network stays disabled. -/
def shadowCreateUserInvocations (name : String) (o : Options) (sssResolvable : Bool) :
    List Invocation :=
  let (cmd, capabilities) := shadowNewCreateUserCmd name o
  let capabilities :=
    if sssResolvable then capabilities ++ ["CAP_SETGID", "CAP_SETUID"] else capabilities
  [⟨cmd, capabilities, false⟩]

end user

namespace find

/-! Find axis, from pkg/linux/find. The backend identifier constants are
`BSD = 1`, `BusyBox = 2`, `GNU = 4`; the zero value is unknown. -/

def BSD : Nat := 1
def BusyBox : Nat := 2
def GNU : Nat := 4

/-- The closed set of find command factories. -/
inductive Factory
  | bsd
  | busybox
  | gnu
deriving Repr, DecidableEq

/-- Translation of `find.NewCommandFactory`. -/
def NewCommandFactory (b : Nat) : Except String Factory :=
  if b = BSD then .ok .bsd
  else if b = BusyBox then .ok .busybox
  else if b = GNU then .ok .gnu
  else .error "unrecognized find implementation"

/-- Per-factory `NewFindSpecialCmd`: the literal argument vector and
capability set returned for the search for files with a SUID or SGID
bit. -/
def NewFindSpecialCmd : Factory → List String × List String
  | .bsd => (["find", "-x", "/", "-perm", "+u=s,g=s"], ["CAP_DAC_READ_SEARCH"])
  | .busybox =>
    (["find", "/", "-xdev", "(", "-perm", "+2000", "-o", "-perm", "+4000", ")"], [])
  | .gnu => (["find", "/", "-xdev", "-perm", "/u=s,g=s"], ["CAP_DAC_READ_SEARCH"])

end find

namespace linux

/-! Distro identifiers and their default backends, from
pkg/linux/distro.go. Constants are `1 << iota`; zero is unknown. -/

def Alpine : Nat := 1
def Arch : Nat := 2
def Chimera : Nat := 4
def Debian : Nat := 8
def Fedora : Nat := 16
def OpenSUSE : Nat := 32
def Void : Nat := 64

/-- Translation of `Distro.DefaultPackageManager`. -/
def DefaultPackageManager (d : Nat) : Nat :=
  if d = Alpine ∨ d = Chimera then pckg.APK
  else if d = Arch then pckg.Pacman
  else if d = Debian then pckg.APT
  else if d = Fedora then pckg.DNF
  else if d = OpenSUSE then pckg.Zypper
  else if d = Void then pckg.XBPS
  else 0

/-- Translation of `Distro.DefaultUserManager`. -/
def DefaultUserManager (d : Nat) : Nat :=
  if d = Alpine then user.BusyBox
  else if d = Arch ∨ d = Chimera ∨ d = Debian ∨ d = Fedora ∨ d = OpenSUSE ∨ d = Void then
    user.Shadow
  else 0

/-- Translation of `Distro.DefaultFinder`. -/
def DefaultFinder (d : Nat) : Nat :=
  if d = Alpine then find.BusyBox
  else if d = Chimera then find.BSD
  else if d = Arch ∨ d = Debian ∨ d = Fedora ∨ d = OpenSUSE ∨ d = Void then find.GNU
  else 0

end linux

namespace spec

/-! The spec data model and `Fill`, from pkg/spec/spec.go. Go maps that
may be nil are modelled as `Option` of an association list: `none` is
the nil map, `some l` a non-nil map with entries `l`. -/

def TCP : Nat := 1
def UDP : Nat := 2

/-- Translation of `spec.Port`. -/
structure Port where
  number : Nat
  protocol : Nat
deriving Repr, DecidableEq

/-- Translation of `spec.This`. -/
structure This where
  distro : Nat
  repository : String
  tag : String
  keepHistory : Bool
deriving Repr, DecidableEq

/-- Translation of `This.Reference`. -/
def This.reference (t : This) : String :=
  t.repository ++ (if t.tag ≠ "" then ":" ++ t.tag else "")

/-- Translation of `spec.From`. -/
structure From where
  repository : String
  tag : String
  digest : String
deriving Repr, DecidableEq

/-- Translation of `From.Reference`. -/
def From.reference (f : From) : String :=
  f.repository ++ (if f.tag ≠ "" then ":" ++ f.tag else "")
    ++ (if f.digest ≠ "" then "@" ++ f.digest else "")

/-- Translation of `spec.Packages`. -/
structure Packages where
  upgrade : Bool
  install : List String
  clean : Bool
deriving Repr, DecidableEq

/-- Translation of `spec.User`. -/
structure User where
  name : String
  id : Nat
  userGroup : Bool
  groups : List String
  comment : Option String
  createHome : Bool
deriving Repr, DecidableEq

/-- Translation of `spec.Copy`. -/
structure Copy where
  base : String
  destination : String
  sources : List String
  excludes : List String
  mode : Nat
  owner : String
  removeS : Bool
deriving Repr, DecidableEq

/-- Translation of `spec.SpecialFiles`. -/
structure SpecialFiles where
  removeS : Bool
  excludes : List String
deriving Repr, DecidableEq

/-- Translation of `spec.Security`. -/
structure Security where
  specialFiles : SpecialFiles
deriving Repr, DecidableEq

/-- Translation of `spec.Clear`. -/
structure Clear where
  annots : Bool
  author : Bool
  command : Bool
  environment : Bool
  entrypoint : Bool
  labels : Bool
  ports : Bool
deriving Repr, DecidableEq

/-- Translation of `spec.Configuration`. The map-valued fields
(Annotations, Environment, Labels) distinguish nil from empty. -/
structure Configuration where
  annots : Option (List (String × String))
  author : String
  command : List String
  createdBy : String
  entrypoint : List String
  environment : Option (List (String × String))
  labels : Option (List (String × String))
  ports : List Port
  workDir : String
  clear : Clear
deriving Repr, DecidableEq

/-- Translation of `spec.Backends` (package manager, user/group manager
and find backend identifiers). -/
structure Backends where
  package : Nat
  user : Nat
  finder : Nat
deriving Repr, DecidableEq

/-- Translation of `spec.Spec`. -/
structure Spec where
  this : This
  fromImage : From
  packages : Packages
  user : Option User
  copy : List Copy
  security : Security
  config : Configuration
  backends : Backends
deriving Repr, DecidableEq

/-- Translation of `spec.Fill`: default the three backend identifiers
from the distro when they are the zero value, replace nil maps by empty
maps, and default the zero protocol of every port to TCP. -/
def Fill (s : Spec) : Spec :=
  let s := if s.backends.package = 0 then
    { s with backends := { s.backends with package := linux.DefaultPackageManager s.this.distro } }
    else s
  let s := if s.backends.user = 0 then
    { s with backends := { s.backends with user := linux.DefaultUserManager s.this.distro } }
    else s
  let s := if s.backends.finder = 0 then
    { s with backends := { s.backends with finder := linux.DefaultFinder s.this.distro } }
    else s
  let s := if s.config.annots = none then
    { s with config := { s.config with annots := some [] } }
    else s
  let s := if s.config.environment = none then
    { s with config := { s.config with environment := some [] } }
    else s
  let s := if s.config.labels = none then
    { s with config := { s.config with labels := some [] } }
    else s
  let filledPorts := s.config.ports.map (fun p => if p.protocol = 0 then { p with protocol := TCP } else p)
  { s with config := { s.config with ports := filledPorts } }

end spec

namespace usrgrp

/-! User and group management layer of pkg/linux/usrgrp together with
the container-side `Builder.CreateUser` of pkg/container/builder.go
(the generation that carries a login shell through user creation). -/

/-- Translation of `usrgrp.CreateUserOptions`. The login shell field is
the one read by `ShadowCommandFactory.NewCreateUserCmd` and written by
`Builder.CreateUser` (named `LoginShell` at those use sites, `Shell` in
the struct declaration snapshot). -/
structure CreateUserOptions where
  id : Nat
  comment : Option String
  userGroup : Bool
  groups : List String
  createHome : Bool
  loginShell : String
deriving Repr, DecidableEq

/-- Translation of `usrgrp.ShadowCommandFactory.NewCreateUserCmd`:
`useradd --create-home` plus the optional flags, ending with the user
name; capabilities `CAP_CHOWN`, `CAP_DAC_OVERRIDE`, `CAP_FOWNER`. -/
def shadowNewCreateUserCmd (name : String) (o : CreateUserOptions) :
    List String × List String :=
  let cmd := ["useradd", "--create-home"]
  let cmd := if o.id > 0 then cmd ++ ["--uid", toString o.id] else cmd
  let cmd := if o.userGroup then cmd ++ ["--user-group"] else cmd
  let cmd := match o.comment with
    | some c => cmd ++ ["--comment", c]
    | none => cmd
  let cmd := if o.loginShell ≠ "" then cmd ++ ["--shell", o.loginShell] else cmd
  let cmd := if o.groups.length > 0 then cmd ++ ["--groups", String.intercalate "," o.groups] else cmd
  (cmd ++ [name], ["CAP_CHOWN", "CAP_DAC_OVERRIDE", "CAP_FOWNER"])

/-- Translation of `ShadowUserGroupManager.CreateUser`: one run of the
factory's create-user command, with `CAP_SETGID`/`CAP_SETUID` appended
to the capabilities when `ResolveExecutable "sss_cache"` succeeds. -/
def shadowManagerCreateUser (resolveExec : String → Except String String)
    (name : String) (o : CreateUserOptions) : List Invocation :=
  let (cmd, capabilities) := shadowNewCreateUserCmd name o
  let capabilities :=
    match resolveExec "sss_cache" with
    | .error _ => capabilities
    | .ok _ => capabilities ++ ["CAP_SETGID", "CAP_SETUID"]
  [⟨cmd, capabilities, false⟩]

end usrgrp

namespace container

/-- Translation of `Builder.CreateUser` (pkg/container/builder.go):
reject a blank name, reject an explicit UID outside [1000, 60000], then,
when a login shell was requested, resolve it to an absolute path with
the container's `command -v` (`resolveExecutable`) and substitute the
resolved path into the options before handing them to the user/group
manager. The manager is the interface value held by the builder, passed
here as the function producing its invocations. -/
def builderCreateUser (resolveExec : String → Except String String)
    (mgrCreateUser : String → usrgrp.CreateUserOptions → List Invocation)
    (name : String) (o : usrgrp.CreateUserOptions) :
    Except String (List Invocation) :=
  if name = "" then .error "blank user name"
  else if o.id ≠ 0 ∧ (o.id < 1000 ∨ o.id > 60000) then
    .error ("UID " ++ toString o.id ++ " outside allowed range [1000-60000]")
  else if o.loginShell ≠ "" then
    match resolveExec o.loginShell with
    | .error e => .error ("resolving shell: " ++ e)
    | .ok shell => .ok (mgrCreateUser name { o with loginShell := shell })
  else .ok (mgrCreateUser name o)

end container

namespace build

/-! The build pipeline of pkg/build/build.go. -/

/-- The stdout-parsing step of `unsetSpecialBits`: Go leaves `targets`
nil when the captured output is empty and otherwise splits the trimmed
output on newlines (tolerating CRLF). -/
def parseFindOutput (outText : String) : List String :=
  if outText.length > 0 then
    gostr.splitString '\n' ⟨gostr.crlfToLF (gostr.trimSpace outText).data⟩
  else []

/-- Translation of `unsetSpecialBits`: run the factory's find-special
command (network disabled, the factory's capabilities); on success,
parse the output into targets, drop the targets contained in the
exclude set (Go builds a set from `excludes` only when it is non-empty),
and, only if any target remains, run a single
`chmod -s <targets...>` with capabilities `CAP_DAC_READ_SEARCH` and
`CAP_FOWNER`. The find and chmod exit results are supplied as
parameters. -/
def unsetSpecialBits (f : find.Factory) (excludes : List String)
    (findResult : Except String String) (chmodResult : Except String Unit) :
    List Invocation × Except String Unit :=
  let fc := find.NewFindSpecialCmd f
  let findInv : Invocation := ⟨fc.1, fc.2, false⟩
  match findResult with
  | .error e => ([findInv], .error ("searching for special files: " ++ e))
  | .ok outText =>
    let targets := parseFindOutput outText
    let targets :=
      if excludes.length > 0 then targets.filter (fun t => !(excludes.contains t)) else targets
    if targets.length > 0 then
      let chmodInv : Invocation :=
        ⟨"chmod" :: "-s" :: targets, ["CAP_DAC_READ_SEARCH", "CAP_FOWNER"], false⟩
      ([findInv, chmodInv], chmodResult)
    else ([findInv], .ok ())

/-- Observable steps of the `Execute` prologue. -/
inductive Event
  | getStore
  | newBuilder (imageRef : String)
deriving Repr, DecidableEq

/-- Outcomes of the external collaborators consumed by `Execute`: the
storage layer and the Buildah builder constructor. -/
structure World where
  getStore : Except String Unit
  refExists : String → Bool
  newBuilder : String → Except String Unit

/-- Translation of the prologue of `Execute` (pkg/build/build.go): get
the store; fail when the target reference already exists and the force
option is off, before any working container is created; otherwise create
the working container from the base image and continue with the rest of
the pipeline (abstracted as `rest`). -/
def executePrologue (w : World) (s : spec.Spec) (force : Bool)
    (rest : List Event × Except String Unit) : List Event × Except String Unit :=
  match w.getStore with
  | .error e => ([], .error ("creating store: " ++ e))
  | .ok _ =>
    if w.refExists s.this.reference && !force then
      ([.getStore], .error ("image " ++ s.this.reference ++ " already exists"))
    else
      match w.newBuilder s.fromImage.reference with
      | .error e => ([.getStore], .error ("creating Buildah builder: " ++ e))
      | .ok _ => (.getStore :: .newBuilder s.fromImage.reference :: rest.1, rest.2)

/-- Translation of the package-installation step of `Execute`
(pkg/build/build.go lines 117-123): `installPackages` — and through it
`Install` — runs only when the spec's install list is non-empty. -/
def installStepInvocations (fr : pckg.Frontend) (install : List String) : List Invocation :=
  if install.length > 0 then pckg.installInvocations fr install else []

end build

/-! Helper lemmas shared by the claim theorems. -/

/-- A filter and its complement partition the length of a list. -/
theorem length_filter_add_length_filter_not {α : Type} (p : α → Bool) (l : List α) :
    (l.filter p).length + (l.filter (fun a => !(p a))).length = l.length := by
  induction l with
  | nil => rfl
  | cons a t ih => cases h : p a <;> simp [List.filter_cons, h] <;> omega

/-- Filtering by non-membership in the empty list changes nothing. -/
theorem filter_not_contains_nil {α : Type} [BEq α] (l : List α) :
    l.filter (fun t => !(([] : List α).contains t)) = l := by
  induction l with
  | nil => rfl
  | cons a t ih => simp [List.filter_cons, ih, List.contains]

/-! Claim theorems. -/

/-- C1: For the shadow-utils backend, `CreateUser` passes the
create-user command exactly the factory's base capability set
{CAP_CHOWN, CAP_DAC_OVERRIDE, CAP_FOWNER} when the `sss_cache` helper is
not resolvable inside the container, and exactly that base set plus
CAP_SETGID and CAP_SETUID when the helper is resolvable. -/
theorem shadow_createUser_capability_sets (name : String) (o : user.Options) :
    (user.shadowNewCreateUserCmd name o).2 = ["CAP_CHOWN", "CAP_DAC_OVERRIDE", "CAP_FOWNER"]
    ∧ (user.shadowCreateUserInvocations name o false).map Invocation.capabilities
        = [["CAP_CHOWN", "CAP_DAC_OVERRIDE", "CAP_FOWNER"]]
    ∧ (user.shadowCreateUserInvocations name o true).map Invocation.capabilities
        = [["CAP_CHOWN", "CAP_DAC_OVERRIDE", "CAP_FOWNER", "CAP_SETGID", "CAP_SETUID"]] :=
  ⟨rfl, rfl, rfl⟩

/-- C2: For the APT backend, `Install` runs exactly two commands in
order — the update-index command and then the install command — each
with the network enabled and each with its own factory-declared
capability set; for every other package backend, `Install` runs exactly
the factory's install command, with the network enabled. -/
theorem apt_install_two_steps_others_one (packages : List String) :
    (pckg.NewPackageFrontend pckg.APT).map (fun fr => pckg.installInvocations fr packages)
      = .ok [⟨["apt", "--quiet", "update"],
             ["CAP_CHOWN", "CAP_DAC_OVERRIDE", "CAP_FOWNER", "CAP_SETGID", "CAP_SETUID"], true⟩,
             ⟨["apt", "--quiet", "--yes", "install"] ++ packages,
             ["CAP_CHOWN", "CAP_DAC_OVERRIDE", "CAP_FOWNER", "CAP_SETGID", "CAP_SETUID"], true⟩]
    ∧ (pckg.NewPackageFrontend pckg.APK).map (fun fr => pckg.installInvocations fr packages)
      = .ok [⟨["apk", "--no-cache", "--no-progress", "--quiet", "add"] ++ packages, [], true⟩]
    ∧ (pckg.NewPackageFrontend pckg.DNF).map (fun fr => pckg.installInvocations fr packages)
      = .ok [⟨["dnf", "--assumeyes", "--quiet", "--setopt=install_weak_deps=False", "install"]
              ++ packages,
             ["CAP_CHOWN", "CAP_DAC_OVERRIDE", "CAP_SETFCAP"], true⟩]
    ∧ (pckg.NewPackageFrontend pckg.Pacman).map (fun fr => pckg.installInvocations fr packages)
      = .ok [⟨["pacman", "--sync", "--noconfirm", "--noprogressbar", "--quiet"] ++ packages,
             ["CAP_CHOWN", "CAP_DAC_OVERRIDE", "CAP_FOWNER", "CAP_SYS_CHROOT"], true⟩]
    ∧ (pckg.NewPackageFrontend pckg.XBPS).map (fun fr => pckg.installInvocations fr packages)
      = .ok [⟨["xbps-install", "--yes"] ++ packages, ["CAP_DAC_OVERRIDE"], true⟩]
    ∧ (pckg.NewPackageFrontend pckg.Zypper).map (fun fr => pckg.installInvocations fr packages)
      = .ok [⟨["zypper", "--non-interactive", "--quiet", "install", "--no-recommends"] ++ packages,
             [], true⟩] :=
  ⟨rfl, rfl, rfl, rfl, rfl, rfl⟩

/-- C3: For every exclude set and every successful find invocation,
`unsetSpecialBits` invokes `chmod -s` on exactly the parsed paths not
matched by the exclude set — their count is the parsed count minus the
matched count — in a single invocation with capabilities exactly
{CAP_DAC_READ_SEARCH, CAP_FOWNER}, and performs zero chmod invocations,
returning success, when no path remains. -/
theorem unsetSpecialBits_chmod_exact (f : find.Factory) (excludes : List String)
    (outText : String) (chmodResult : Except String Unit) :
    (build.unsetSpecialBits f excludes (.ok outText) chmodResult).1
      = ⟨(find.NewFindSpecialCmd f).1, (find.NewFindSpecialCmd f).2, false⟩ ::
        (if 0 < ((build.parseFindOutput outText).filter
              (fun t => !(excludes.contains t))).length then
          [⟨"chmod" :: "-s" ::
              (build.parseFindOutput outText).filter (fun t => !(excludes.contains t)),
            ["CAP_DAC_READ_SEARCH", "CAP_FOWNER"], false⟩]
         else [])
    ∧ ((build.parseFindOutput outText).filter (fun t => !(excludes.contains t))).length
        + ((build.parseFindOutput outText).filter (fun t => excludes.contains t)).length
        = (build.parseFindOutput outText).length
    ∧ (build.unsetSpecialBits f excludes (.ok outText) chmodResult).2
      = (if 0 < ((build.parseFindOutput outText).filter
              (fun t => !(excludes.contains t))).length
         then chmodResult else .ok ()) := by
  refine ⟨?_, ?_, ?_⟩
  case _ =>
    by_cases hex : 0 < excludes.length
    · simp [build.unsetSpecialBits, hex]
      split <;> simp
    · have hnil : excludes = [] := by
        cases excludes with
        | nil => rfl
        | cons a t => simp at hex
      subst hnil
      simp [build.unsetSpecialBits, filter_not_contains_nil]
      split <;> simp
  case _ =>
    have := length_filter_add_length_filter_not (fun t => excludes.contains t)
      (build.parseFindOutput outText)
    omega
  case _ =>
    by_cases hex : 0 < excludes.length
    · simp [build.unsetSpecialBits, hex]
      split <;> rfl
    · have hnil : excludes = [] := by
        cases excludes with
        | nil => rfl
        | cons a t => simp at hex
      subst hnil
      simp [build.unsetSpecialBits, filter_not_contains_nil]
      split <;> rfl


/-- C4 counterexample: the find-special command returned by
`NewFindSpecialCmd` for the GNU backend is exactly
`find / -xdev -perm /u=s,g=s`; it contains no `/home` element, no
`-prune` and no `-type` test, so the command neither prunes `/home` from
the search root nor restricts the search to regular files. -/
theorem find_special_gnu_no_home_prune :
    (find.NewFindSpecialCmd .gnu).1 = ["find", "/", "-xdev", "-perm", "/u=s,g=s"]
    ∧ "/home" ∉ (find.NewFindSpecialCmd .gnu).1
    ∧ "-prune" ∉ (find.NewFindSpecialCmd .gnu).1
    ∧ "-type" ∉ (find.NewFindSpecialCmd .gnu).1 := by
  refine ⟨rfl, ?_, ?_, ?_⟩ <;> decide

/-- C4 amended: for every find backend, the find-special command
searches from `/` while staying on one file system (`-xdev`, or `-x` for
the BSD variant) for files carrying a setuid or setgid permission bit,
with the literal argument vectors and capability sets below; no
backend's command restricts the match to regular files or prunes `/home`
from the search root. -/
theorem find_special_commands (f : find.Factory) :
    find.NewFindSpecialCmd .bsd
        = (["find", "-x", "/", "-perm", "+u=s,g=s"], ["CAP_DAC_READ_SEARCH"])
    ∧ find.NewFindSpecialCmd .busybox
        = (["find", "/", "-xdev", "(", "-perm", "+2000", "-o", "-perm", "+4000", ")"], [])
    ∧ find.NewFindSpecialCmd .gnu
        = (["find", "/", "-xdev", "-perm", "/u=s,g=s"], ["CAP_DAC_READ_SEARCH"])
    ∧ "/home" ∉ (find.NewFindSpecialCmd f).1
    ∧ "-type" ∉ (find.NewFindSpecialCmd f).1
    ∧ ("-xdev" ∈ (find.NewFindSpecialCmd f).1 ∨ "-x" ∈ (find.NewFindSpecialCmd f).1) := by
  cases f <;> refine ⟨rfl, rfl, rfl, ?_, ?_, ?_⟩ <;> decide

/-- C5 counterexample: `PackageFrontend.Install` runs its install
command even for an empty package list — the generic frontend for APK
performs one invocation on the empty list — so calling `Install` with an
empty package list does not perform zero container invocations. -/
theorem install_empty_counterexample :
    ¬ (∀ fr : pckg.Frontend, pckg.installInvocations fr [] = []) := by
  intro h
  have hx := h (.generic .apk)
  simp [pckg.installInvocations, pckg.NewInstallCmd] at hx

/-- C5 amended: the build pipeline performs zero container invocations
for an empty install list because `Execute` runs the install step only
when the spec's list is non-empty; `Install` itself, called with an
empty package list, still runs the factory's install command (one
invocation for the generic frontend, two for the APT frontend). -/
theorem install_empty_step_skipped (fr : pckg.Frontend) :
    build.installStepInvocations fr [] = []
    ∧ pckg.installInvocations fr [] ≠ []
    ∧ (pckg.installInvocations fr []).length
        = (match fr with | .apt _ => 2 | .generic _ => 1) := by
  obtain (f | f) := fr <;> cases f <;> exact ⟨rfl, by decide, rfl⟩

/-- C6: on each axis (package manager, user/group manager, find
implementation), `NewCommandFactory` succeeds exactly on the named
backend constants of that axis and returns an error for every other
value, in particular for the zero/unknown identifier, which is not a
named constant. -/
theorem newCommandFactory_ok_iff :
    (∀ m : Nat, exceptIsOk (pckg.NewCommandFactory m) = true
        ↔ m ∈ [pckg.APK, pckg.APT, pckg.DNF, pckg.Pacman, pckg.XBPS, pckg.Zypper])
    ∧ (∀ m : Nat, exceptIsOk (user.NewCommandFactory m) = true
        ↔ m ∈ [user.BusyBox, user.Shadow])
    ∧ (∀ b : Nat, exceptIsOk (find.NewCommandFactory b) = true
        ↔ b ∈ [find.BSD, find.BusyBox, find.GNU])
    ∧ (0 : Nat) ∉ [pckg.APK, pckg.APT, pckg.DNF, pckg.Pacman, pckg.XBPS, pckg.Zypper]
    ∧ (0 : Nat) ∉ [user.BusyBox, user.Shadow]
    ∧ (0 : Nat) ∉ [find.BSD, find.BusyBox, find.GNU] := by
  refine ⟨?_, ?_, ?_, by decide, by decide, by decide⟩
  · intro m
    simp only [pckg.NewCommandFactory, pckg.APK, pckg.APT, pckg.DNF, pckg.Pacman, pckg.XBPS,
      pckg.Zypper]
    split_ifs <;> simp_all [exceptIsOk]
  · intro m
    simp only [user.NewCommandFactory, user.BusyBox, user.Shadow]
    split_ifs <;> simp_all [exceptIsOk]
  · intro b
    simp only [find.NewCommandFactory, find.BSD, find.BusyBox, find.GNU]
    split_ifs <;> simp_all [exceptIsOk]


/-- C7: when the force option is off and the target repository:tag is
already present in the store, `Execute` fails with an error naming the
existing reference right after the store lookup — before any working
container is created, so no builder-creation event occurs in that run. -/
theorem execute_existing_ref_fails_before_builder (w : build.World) (s : spec.Spec)
    (force : Bool) (rest : List build.Event × Except String Unit)
    (hstore : w.getStore = .ok ()) (hex : w.refExists s.this.reference = true)
    (hforce : force = false) :
    build.executePrologue w s force rest
      = ([.getStore], .error ("image " ++ s.this.reference ++ " already exists"))
    ∧ ∀ ref, build.Event.newBuilder ref ∉ (build.executePrologue w s force rest).1 := by
  subst hforce
  refine ⟨?_, ?_⟩
  · simp [build.executePrologue, hstore, hex]
  · intro ref
    simp [build.executePrologue, hstore, hex]

/-- C7 witness: in a concrete world whose store already holds the target
reference, the prologue with the force option off stops with the error
naming `repo:tag` and performs no builder creation. -/
theorem execute_existing_ref_fails_before_builder_witness :
    build.executePrologue
        ⟨.ok (), fun _ => true, fun _ => .ok ()⟩
        ⟨⟨16, "repo", "tag", false⟩, ⟨"base", "latest", ""⟩, ⟨false, [], false⟩, none, [],
          ⟨⟨false, []⟩⟩,
          ⟨none, "", [], "", [], none, none, [], "",
            ⟨false, false, false, false, false, false, false⟩⟩,
          ⟨0, 0, 0⟩⟩
        false ([], .ok ())
      = ([.getStore], .error "image repo:tag already exists")
    ∧ build.Event.newBuilder "base:latest"
        ∉ (build.executePrologue
            ⟨.ok (), fun _ => true, fun _ => .ok ()⟩
            ⟨⟨16, "repo", "tag", false⟩, ⟨"base", "latest", ""⟩, ⟨false, [], false⟩, none, [],
              ⟨⟨false, []⟩⟩,
              ⟨none, "", [], "", [], none, none, [], "",
                ⟨false, false, false, false, false, false, false⟩⟩,
              ⟨0, 0, 0⟩⟩
            false ([], .ok ())).1 :=
  ⟨(execute_existing_ref_fails_before_builder _ _ _ _ rfl rfl rfl).1,
   (execute_existing_ref_fails_before_builder _ _ _ _ rfl rfl rfl).2 "base:latest"⟩

/-- C8: when a login shell is requested, `Builder.CreateUser` resolves
it through the container's PATH before invoking the user-creation
command: the options handed to the user/group manager carry the resolved
path in place of the requested shell, and for the shadow-utils factory
the resulting `useradd` argument vector contains `--shell` immediately
followed by that resolved (absolute) path. -/
theorem createUser_resolves_shell
    (resolveExec : String → Except String String)
    (mgrCreateUser : String → usrgrp.CreateUserOptions → List Invocation)
    (name : String) (o : usrgrp.CreateUserOptions) (p : String)
    (hname : name ≠ "")
    (hid : o.id = 0 ∨ (1000 ≤ o.id ∧ o.id ≤ 60000))
    (hshell : o.loginShell ≠ "")
    (hres : resolveExec o.loginShell = .ok p)
    (habs : p.data.head? = some '/') :
    container.builderCreateUser resolveExec mgrCreateUser name o
      = .ok (mgrCreateUser name { o with loginShell := p })
    ∧ List.IsInfix ["--shell", p]
        (usrgrp.shadowNewCreateUserCmd name { o with loginShell := p }).1 := by
  have hguard : ¬ (o.id ≠ 0 ∧ (o.id < 1000 ∨ o.id > 60000)) := by
    rcases hid with h | ⟨h1, h2⟩
    · simp [h]
    · rintro ⟨-, h3 | h3⟩ <;> omega
  have hp : p ≠ "" := by
    intro h
    subst h
    simp at habs
  refine ⟨?_, ?_⟩
  · simp [container.builderCreateUser, hname, hshell, hres, hguard]
  · simp only [usrgrp.shadowNewCreateUserCmd, ne_eq, hp, not_false_eq_true, if_true]
    by_cases hg : 0 < o.groups.length <;>
      simp only [hg, if_true, if_false] <;>
      first
      | exact ⟨_, _, (List.append_assoc _ _ _).symm⟩
      | exact ⟨_, [_], rfl⟩

/-- C8 witness: a concrete resolver mapping the requested shell `zsh` to
`/bin/zsh`; `Builder.CreateUser` hands the shadow manager the options
with the resolved absolute path, and the `useradd` command carries
`--shell /bin/zsh`. -/
theorem createUser_resolves_shell_witness :
    container.builderCreateUser (fun _ => .ok "/bin/zsh")
        (fun n o2 => usrgrp.shadowManagerCreateUser (fun _ => .error "absent") n o2)
        "dev" ⟨0, none, true, [], true, "zsh"⟩
      = .ok (usrgrp.shadowManagerCreateUser (fun _ => .error "absent") "dev"
          ⟨0, none, true, [], true, "/bin/zsh"⟩)
    ∧ List.IsInfix ["--shell", "/bin/zsh"]
        (usrgrp.shadowNewCreateUserCmd "dev" ⟨0, none, true, [], true, "/bin/zsh"⟩).1 :=
  createUser_resolves_shell _ _ "dev" ⟨0, none, true, [], true, "zsh"⟩ "/bin/zsh"
    (by decide) (Or.inl rfl) (by decide) rfl rfl

/-- C9 counterexample: it is not the case that `List` avoids the empty
package list for every backend when the list-installed command succeeds
with empty captured stdout: the DNF parser treats the resulting
one-element line list as shorter than its header and returns the empty
package list. -/
theorem list_empty_output_counterexample :
    ¬ (∀ f : pckg.Factory, pckg.listInstalledPackages f "" ≠ Except.ok []) := by
  intro h
  exact h .dnf rfl

/-- C9 amended: with empty captured stdout the orchestrator
unconditionally splits the trimmed output into the one-element line list
containing the empty string and feeds it to the parser; the identity
parsers (APT, Pacman) return a single empty-string package name, the
per-line parsers (APK, XBPS) return a format error, and the
header-skipping parsers (DNF, Zypper) return the empty package list. -/
theorem list_empty_output_by_backend :
    pckg.listLines "" = [""]
    ∧ pckg.listInstalledPackages .apt "" = .ok [""]
    ∧ pckg.listInstalledPackages .pacman "" = .ok [""]
    ∧ exceptIsOk (pckg.listInstalledPackages .apk "") = false
    ∧ exceptIsOk (pckg.listInstalledPackages .xbps "") = false
    ∧ pckg.listInstalledPackages .dnf "" = .ok []
    ∧ pckg.listInstalledPackages .zypper "" = .ok [] :=
  ⟨rfl, rfl, rfl, rfl, rfl, rfl, rfl⟩

/-- Defaulting the zero protocol of every port to TCP is idempotent. -/
theorem portFill_map_idem (l : List spec.Port) :
    (l.map (fun p => if p.protocol = 0 then { p with protocol := spec.TCP } else p)).map
        (fun p => if p.protocol = 0 then { p with protocol := spec.TCP } else p)
      = l.map (fun p => if p.protocol = 0 then { p with protocol := spec.TCP } else p) := by
  induction l with
  | nil => rfl
  | cons a t ih =>
    simp only [List.map_cons, ih]
    congr 1
    by_cases h : a.protocol = 0
    · simp [h, spec.TCP]
    · simp [h]

/-- The three backend defaults, applied a second time, change nothing:
the first application either kept a non-zero identifier or installed the
distro default, and re-defaulting the distro default is the identity. -/
theorem default_fill_idem (b d : Nat) :
    (if (if b = 0 then d else b) = 0 then d else if b = 0 then d else b)
      = if b = 0 then d else b := by
  by_cases h : b = 0 <;> simp [h]

/-- Replacing a nil map by an empty map a second time changes nothing. -/
theorem opt_fill_idem {α : Type} [DecidableEq α] (a : Option α) (x : α) :
    (if (if a = none then some x else a) = none then some x else if a = none then some x else a)
      = if a = none then some x else a := by
  cases a <;> simp

/-- The field-parallel form of `Fill`: the Go statements of `Fill` each
assign a distinct field, so the sequential updates collapse into one
simultaneous record update. -/
def FillP (s : spec.Spec) : spec.Spec :=
  { s with
    backends :=
      { package :=
          if s.backends.package = 0 then linux.DefaultPackageManager s.this.distro
          else s.backends.package,
        user :=
          if s.backends.user = 0 then linux.DefaultUserManager s.this.distro
          else s.backends.user,
        finder :=
          if s.backends.finder = 0 then linux.DefaultFinder s.this.distro
          else s.backends.finder },
    config := { s.config with
      annots := if s.config.annots = none then some [] else s.config.annots,
      environment := if s.config.environment = none then some [] else s.config.environment,
      labels := if s.config.labels = none then some [] else s.config.labels,
      ports :=
        s.config.ports.map (fun p => if p.protocol = 0 then { p with protocol := spec.TCP } else p) } }

/-- `Fill` computes the field-parallel form. -/
theorem Fill_eq_FillP (s : spec.Spec) : spec.Fill s = FillP s := by
  obtain ⟨th, fr, pk, us, cp, se, ⟨an, au, cm, cb, ep, en, la, po, wd, cl⟩, ⟨bp, bu, bf⟩⟩ := s
  simp only [spec.Fill, FillP]
  by_cases h1 : bp = 0 <;> by_cases h2 : bu = 0 <;> by_cases h3 : bf = 0 <;>
    by_cases h4 : an = none <;> by_cases h5 : en = none <;> by_cases h6 : la = none <;>
    simp [h1, h2, h3, h4, h5, h6]

/-- The field-parallel form is idempotent. -/
theorem FillP_idem (s : spec.Spec) : FillP (FillP s) = FillP s := by
  obtain ⟨th, fr, pk, us, cp, se, ⟨an, au, cm, cb, ep, en, la, po, wd, cl⟩, ⟨bp, bu, bf⟩⟩ := s
  simp only [FillP, spec.Spec.mk.injEq, spec.Configuration.mk.injEq, spec.Backends.mk.injEq,
    default_fill_idem, opt_fill_idem, portFill_map_idem, eq_self_iff_true, and_self, and_true,
    true_and]

/-- C10: `Fill` is idempotent — a second application changes nothing,
because backend defaults only replace the zero identifier, map
initialization only replaces nil maps, and port-protocol defaulting only
replaces the zero protocol. -/
theorem Fill_idem (s : spec.Spec) : spec.Fill (spec.Fill s) = spec.Fill s := by
  simp only [Fill_eq_FillP, FillP_idem]
